import Mathlib

/-!
Verification of the `testing.py` decorator script: a gate
`check_working_hours` wraps a unary operation so that the operation runs
only when the integer argument lies strictly between 1100 and 2100, and
otherwise a fixed unavailability line is printed instead.

Side effects are modelled as the list of lines written to standard
output.  An operation is a function `Int → List String` returning the
lines it prints.
-/

/-- Embedding of the inner (undecorated) `sweep_floors` body: it prints
the single line `I am at work`, ignoring its argument. -/
def sweep_floors_inner (_time : Int) : List String :=
  ["I am at work"]

/-- Embedding of `check_working_hours`: given an operation `func`, the
returned `wrapper` runs `func time` when `1100 < time < 2100`, and
otherwise prints the single line containing the unavailability text. -/
def check_working_hours (func : Int → List String) (time : Int) : List String :=
  if 1100 < time ∧ time < 2100 then func time
  else ["I\x27m unavailable!"]

/-- The decorated `sweep_floors`, i.e. `check_working_hours` applied to
the inner body, exactly as the `@check_working_hours` decoration does. -/
def sweep_floors (time : Int) : List String :=
  check_working_hours sweep_floors_inner time

/-- Instrumented embedding of the same `wrapper` body: alongside the
printed lines it returns how many times the wrapped `func` was invoked
during the call.  The branch structure is identical to the source: the
true branch calls `func` once, the false branch never calls it. -/
def check_working_hours_run (func : Int → List String) (time : Int) :
    List String × Nat :=
  if 1100 < time ∧ time < 2100 then (func time, 1)
  else (["I\x27m unavailable!"], 0)

/-- Number of invocations of the wrapped inner operation performed by
one call of the decorated `sweep_floors`. -/
def sweep_floors_calls (time : Int) : Nat :=
  (check_working_hours_run sweep_floors_inner time).2

/-- Exception-aware embedding of the inner body: printing a literal never
raises, so the result is always `ok`. -/
def sweep_floors_innerE (_time : Int) : Except String (List String) :=
  Except.ok ["I am at work"]

/-- Exception-aware embedding of the `wrapper` body: the chained integer
comparison `1100 < time < 2100` on an integer never raises in the source,
and each branch performs only a call or a print, so the only failure
route would be a failure of `func` itself. -/
def check_working_hoursE (func : Int → Except String (List String))
    (time : Int) : Except String (List String) :=
  if 1100 < time ∧ time < 2100 then func time
  else Except.ok ["I\x27m unavailable!"]

/-- Exception-aware decorated `sweep_floors`. -/
def sweep_floorsE (time : Int) : Except String (List String) :=
  check_working_hoursE sweep_floors_innerE time

/-- Output of the whole program: the module-level call `sweep_floors(2000)`
on line 16 of the source. -/
def main_output : List String :=
  sweep_floors 2000

/-- C1: for every integer t with 1100 < t < 2100, the gated operation
runs the wrapped body and the output is exactly the line `I am at work`,
with no unavailability message emitted. -/
theorem c1_in_hours_at_work (t : Int) (h1 : 1100 < t) (h2 : t < 2100) :
    sweep_floors t = ["I am at work"] ∧
      "I\x27m unavailable!" ∉ sweep_floors t ∧
      sweep_floors_calls t = 1 := by
  unfold sweep_floors sweep_floors_calls check_working_hours
    check_working_hours_run sweep_floors_inner
  rw [if_pos ⟨h1, h2⟩, if_pos ⟨h1, h2⟩]
  refine ⟨rfl, ?_, rfl⟩
  simp

/-- C1 witness at t = 1500. -/
theorem c1_in_hours_at_work_witness :
    sweep_floors 1500 = ["I am at work"] ∧
      "I\x27m unavailable!" ∉ sweep_floors 1500 ∧
      sweep_floors_calls 1500 = 1 :=
  c1_in_hours_at_work 1500 (by decide) (by decide)

/-- C2: for every integer t with t ≤ 1100 or t ≥ 2100, the gated
operation emits exactly the single line with the unavailability text and
never invokes the wrapped operation. -/
theorem c2_out_of_hours_unavailable (t : Int)
    (h : t ≤ 1100 ∨ 2100 ≤ t) :
    sweep_floors t = ["I\x27m unavailable!"] ∧ sweep_floors_calls t = 0 := by
  have hnc : ¬ (1100 < t ∧ t < 2100) := by
    rcases h with h | h
    · intro hc; exact absurd h (not_le.mpr hc.1)
    · intro hc; exact absurd h (not_le.mpr hc.2)
  unfold sweep_floors sweep_floors_calls check_working_hours
    check_working_hours_run
  rw [if_neg hnc, if_neg hnc]
  exact ⟨rfl, rfl⟩

/-- C2 witness at t = 1100. -/
theorem c2_out_of_hours_unavailable_witness :
    sweep_floors 1100 = ["I\x27m unavailable!"] ∧
      sweep_floors_calls 1100 = 0 :=
  c2_out_of_hours_unavailable 1100 (Or.inl (by decide))

/-- C3: for every wrapped operation and every integer input, the wrapper
invokes the underlying operation exactly when the gating condition
1100 < time < 2100 holds, and never otherwise; the branch on the
condition is what decides whether the invocation happens at all. -/
theorem c3_gate_invariant (func : Int → List String) (t : Int) :
    (0 < (check_working_hours_run func t).2 ↔ 1100 < t ∧ t < 2100) ∧
      (¬ (1100 < t ∧ t < 2100) → (check_working_hours_run func t).2 = 0) := by
  unfold check_working_hours_run
  by_cases hc : 1100 < t ∧ t < 2100
  · rw [if_pos hc]
    exact ⟨⟨fun _ => hc, fun _ => Nat.zero_lt_one⟩, fun hn => absurd hc hn⟩
  · rw [if_neg hc]
    exact ⟨⟨fun h => absurd rfl (Nat.ne_of_gt h), fun h => absurd h hc⟩,
      fun _ => rfl⟩

/-- C4: the four boundary inputs behave as specified: 1100 and 2100 fall
in the unavailability branch (exclusive bounds), 1101 and 2099 run the
wrapped operation. -/
theorem c4_boundaries :
    sweep_floors 1100 = ["I\x27m unavailable!"] ∧
      sweep_floors 1101 = ["I am at work"] ∧
      sweep_floors 2099 = ["I am at work"] ∧
      sweep_floors 2100 = ["I\x27m unavailable!"] := by
  refine ⟨?_, ?_, ?_, ?_⟩ <;> decide

/-- C5: the module-level entry call invokes the gated operation once with
the literal 2000; since 1100 < 2000 < 2100 holds, the whole program
output is exactly the single line `I am at work`. -/
theorem c5_entry_output :
    (1100 < (2000 : Int) ∧ (2000 : Int) < 2100) ∧
      main_output = ["I am at work"] ∧
      sweep_floors_calls 2000 = 1 := by
  refine ⟨by decide, ?_, by decide⟩
  decide

/-- C6: the undecorated inner operation unconditionally prints exactly
the line `I am at work`, for every integer argument, and its behavior
does not depend on the argument. -/
theorem c6_inner_unconditional (t : Int) :
    sweep_floors_inner t = ["I am at work"] ∧
      ∀ s : Int, sweep_floors_inner t = sweep_floors_inner s :=
  ⟨rfl, fun _ => rfl⟩

/-- C7: for every integer input, the gated operation emits exactly one
line, and that line is one of the two literals `I am at work` and the
unavailability text. -/
theorem c7_single_line_two_literals (t : Int) :
    (sweep_floors t).length = 1 ∧
      (sweep_floors t = ["I am at work"] ∨
        sweep_floors t = ["I\x27m unavailable!"]) := by
  unfold sweep_floors check_working_hours sweep_floors_inner
  by_cases hc : 1100 < t ∧ t < 2100
  · rw [if_pos hc]; exact ⟨rfl, Or.inl rfl⟩
  · rw [if_neg hc]; exact ⟨rfl, Or.inr rfl⟩

/-- C8: the gated operation is deterministic and stateless: two
invocations with equal inputs yield equal outputs and equal invocation
counts of the wrapped operation. -/
theorem c8_deterministic (t₁ t₂ : Int) (h : t₁ = t₂) :
    sweep_floors t₁ = sweep_floors t₂ ∧
      sweep_floors_calls t₁ = sweep_floors_calls t₂ := by
  subst h; exact ⟨rfl, rfl⟩

/-- C8 witness at t = 2000 twice. -/
theorem c8_deterministic_witness :
    sweep_floors 2000 = sweep_floors 2000 ∧
      sweep_floors_calls 2000 = sweep_floors_calls 2000 :=
  c8_deterministic 2000 2000 rfl

/-- C9: every integer input is legal: the exception-aware embedding of
the gated operation returns `ok` on every integer, so no error branch is
reachable for any in-range or out-of-range integer input. -/
theorem c9_total_no_error (t : Int) :
    ∃ out : List String, sweep_floorsE t = Except.ok out := by
  unfold sweep_floorsE check_working_hoursE sweep_floors_innerE
  by_cases hc : 1100 < t ∧ t < 2100
  · exact ⟨["I am at work"], by rw [if_pos hc]⟩
  · exact ⟨["I\x27m unavailable!"], by rw [if_neg hc]⟩

/-- C10: within one call of the gated operation the wrapped operation is
invoked at most once: exactly once when 1100 < t < 2100 holds and zero
times otherwise. -/
theorem c10_at_most_once (t : Int) :
    sweep_floors_calls t ≤ 1 ∧
      (1100 < t ∧ t < 2100 → sweep_floors_calls t = 1) ∧
      (¬ (1100 < t ∧ t < 2100) → sweep_floors_calls t = 0) := by
  unfold sweep_floors_calls check_working_hours_run
  by_cases hc : 1100 < t ∧ t < 2100
  · rw [if_pos hc]
    exact ⟨le_refl 1, fun _ => rfl, fun hn => absurd hc hn⟩
  · rw [if_neg hc]
    exact ⟨Nat.zero_le 1, fun h => absurd h hc, fun _ => rfl⟩
